import Mathlib

/-!
Shallow embedding of `drivers/idle/intel_idle.c` (intel_idle cpuidle driver,
version 0.4).  Pure functions of the C source become Lean functions; the
driver's static globals (`max_cstate`, `power_policy`, `substates`,
`lapic_timer_reliable_states`, `cpuidle_state_table`, `choose_substate`)
become an explicit `DriverState` record threaded through the operations.
Hardware/boot facts read by the probe (`boot_cpu_data`, `cpuid`,
`boot_cpu_has`) become a read-only `ProbeEnv`.  The per-cpu device
bookkeeping of `intel_idle_cpuidle_devices_init/uninit` becomes a `DevState`
(allocation handle plus the set of registered cpus), with the external
`cpuidle_register_device` outcome supplied as an oracle `regOk`.
-/

namespace IntelIdle

/-! ## Constants (from the `#define`s at the top of the file) -/

def MWAIT_SUBSTATE_MASK : Nat := 0xf
def MWAIT_CSTATE_MASK : Nat := 0xf
def MWAIT_SUBSTATE_SIZE : Nat := 4
def MWAIT_MAX_NUM_CSTATES : Nat := 8
def CPUID_MWAIT_LEAF : Nat := 5
def CPUID5_ECX_EXTENSIONS_SUPPORTED : Nat := 0x1
def CPUID5_ECX_INTERRUPT_BREAK : Nat := 0x2

/-- errno values used by the driver (from the kernel headers). -/
def EPERM : Int := 1
def ENODEV : Int := 19
def ENOMEM : Int := 12
def EIO : Int := 5

/-- `CPUIDLE_FLAG_TIME_VALID` from `linux/cpuidle.h` (external header). -/
def CPUIDLE_FLAG_TIME_VALID : Nat := 1

/-! ## Data model -/

/-- One row of a cstate catalog (`struct cpuidle_state`).  The `.enter`
function pointer is modelled by a `Bool`: `true` iff the pointer is
non-NULL (every non-NULL pointer in this file is `&intel_idle`). -/
structure cpuidle_state where
  name : String := ""
  desc : String := ""
  driver_data : Nat := 0
  flags : Nat := 0
  exit_latency : Nat := 0
  power_usage : Nat := 0
  target_residency : Nat := 0
  enter : Bool := false
deriving DecidableEq, Repr

/-- Which static catalog `cpuidle_state_table` points at (`null` = the
initial NULL pointer). -/
inductive StateTable where
  | null
  | nehalem
  | atom
deriving DecidableEq, Repr

/-- Which function `choose_substate` points at (`null` = the initial NULL
pointer). -/
inductive SubstatePolicy where
  | null
  | tunable
  | zero
deriving DecidableEq, Repr

/-- The driver's static globals.  Defaults are the C initializers:
`max_cstate = MWAIT_MAX_NUM_CSTATES - 1`, `power_policy = 7`, the rest
zero/NULL. -/
structure DriverState where
  max_cstate : Int := 7
  power_policy : Int := 7
  substates : Nat := 0
  lapic_timer_reliable_states : Nat := 0
  cpuidle_state_table : StateTable := .null
  choose_substate : SubstatePolicy := .null
deriving DecidableEq, Repr

/-- Hardware/boot facts consulted by `intel_idle_probe` (read-only). -/
structure ProbeEnv where
  vendor_intel : Bool := true
  has_mwait : Bool := true
  cpuid_level : Nat := 5
  cpuid5_ecx : Nat := 3
  cpuid5_edx : Nat := 0
  has_arat : Bool := false
  family : Nat := 6
  model : Nat := 0
  has_nonstop_tsc : Bool := true
deriving DecidableEq, Repr

/-! ## Catalog tables

`nehalem_cstates` and `atom_cstates`, padded with zero-initialized rows to
`MWAIT_MAX_NUM_CSTATES = 8` entries as the C array declarations do. -/

def nehalem_cstates : List cpuidle_state :=
  [ {},  -- MWAIT C0, dummy
    { name := "NHM-C1", desc := "MWAIT 0x00", driver_data := 0x00,
      flags := CPUIDLE_FLAG_TIME_VALID, exit_latency := 3,
      power_usage := 1000, target_residency := 6, enter := true },
    { name := "NHM-C3", desc := "MWAIT 0x10", driver_data := 0x10,
      flags := CPUIDLE_FLAG_TIME_VALID, exit_latency := 20,
      power_usage := 500, target_residency := 80, enter := true },
    { name := "NHM-C6", desc := "MWAIT 0x20", driver_data := 0x20,
      flags := CPUIDLE_FLAG_TIME_VALID, exit_latency := 200,
      power_usage := 350, target_residency := 800, enter := true },
    {}, {}, {}, {} ]

def atom_cstates : List cpuidle_state :=
  [ {},  -- MWAIT C0, dummy
    { name := "ATM-C1", desc := "MWAIT 0x00", driver_data := 0x00,
      flags := CPUIDLE_FLAG_TIME_VALID, exit_latency := 1,
      power_usage := 1000, target_residency := 4, enter := true },
    { name := "ATM-C2", desc := "MWAIT 0x10", driver_data := 0x10,
      flags := CPUIDLE_FLAG_TIME_VALID, exit_latency := 20,
      power_usage := 500, target_residency := 80, enter := true },
    {},  -- MWAIT C3
    { name := "ATM-C4", desc := "MWAIT 0x30", driver_data := 0x30,
      flags := CPUIDLE_FLAG_TIME_VALID, exit_latency := 100,
      power_usage := 250, target_residency := 400, enter := true },
    {},  -- MWAIT C5
    { name := "ATM-C6", desc := "MWAIT 0x40", driver_data := 0x40,
      flags := CPUIDLE_FLAG_TIME_VALID, exit_latency := 200,
      power_usage := 150, target_residency := 800, enter := false },
    {} ]

def tableOf : StateTable → List cpuidle_state
  | .null => []
  | .nehalem => nehalem_cstates
  | .atom => atom_cstates

/-! ## Substate selection policies -/

/-- The packed-field lookup `(substates >> (cstate * 4)) & MWAIT_SUBSTATE_MASK`
performed after the C's defensive `cstate &= 7`.  `cstate` is a C `int`;
`& 7` on a two's-complement int equals `emod 8`. -/
def num_substates_of (substates : Nat) (cstate : Int) : Nat :=
  (substates >>> ((cstate % 8).toNat * 4)) &&& MWAIT_SUBSTATE_MASK

/-- `choose_tunable_substate()`.  Returns the chosen substate (the C `int`
return value) together with the new value of the global `power_policy`,
because the C source executes `power_policy &= 0xF` on the global itself
(`& 0xF` on a two's-complement int equals `emod 16`).  The arithmetic of
`substate_choice` is C `unsigned` arithmetic on small non-negative values,
rendered in `Nat`. -/
def choose_tunable_substate (substates : Nat) (power_policy : Int) (cstate : Int) :
    Int × Int :=
  let pp : Int := power_policy % 16
  let num_substates : Nat := num_substates_of substates cstate
  if num_substates ≤ 1 then
    (0, pp)
  else
    let substate_choice : Nat :=
      (pp.toNat + (pp.toNat + 1) * (num_substates - 1)) / 16
    ((substate_choice : Int), pp)

/-- `choose_zero_substate()`. -/
def choose_zero_substate (_cstate : Int) : Int := 0

/-- The indirect call `(choose_substate)(cstate)` in `intel_idle`.  A NULL
function pointer (policy not yet selected) cannot be called: `none`.  The
tunable policy's write-back to the global `power_policy` is reflected in the
returned `DriverState`. -/
def choose_substate_call (s : DriverState) (cstate : Int) :
    Option (Int × DriverState) :=
  match s.choose_substate with
  | .null => none
  | .tunable =>
    let r := choose_tunable_substate s.substates s.power_policy cstate
    some (r.1, { s with power_policy := r.2 })
  | .zero => some (choose_zero_substate cstate, s)

/-! ## intel_idle_probe -/

/-- `intel_idle_probe()`.  Returns the C return value together with the
updated globals.  Control flow is a literal transcription: the ordered
admission checks, the `DEBUG`-guarded `substates = edx` (the `DEBUG` macro
is defined in this file, so the guard `if (substates == 0)` is compiled in),
the ARAT all-ones mask, the family-6 check, and the model switch with its
fall-through from the `0x1A/0x1E/0x1F/0x2E` group into the `0x25/0x2C`
group.  `FUTURE_USE` is not defined, so model `0x17` falls to `default`. -/
def intel_idle_probe (env : ProbeEnv) (s : DriverState) : Int × DriverState :=
  if s.max_cstate = 0 then
    (-EPERM, s)
  else if env.vendor_intel = false then
    (-ENODEV, s)
  else if env.has_mwait = false then
    (-ENODEV, s)
  else if env.cpuid_level < CPUID_MWAIT_LEAF then
    (-ENODEV, s)
  else if env.cpuid5_ecx &&& CPUID5_ECX_EXTENSIONS_SUPPORTED = 0 ∨
          env.cpuid5_ecx &&& CPUID5_ECX_INTERRUPT_BREAK = 0 then
    (-ENODEV, s)
  else
    let s := if s.substates = 0 then { s with substates := env.cpuid5_edx } else s
    let s := if env.has_arat then
               { s with lapic_timer_reliable_states := 0xFFFFFFFF }
             else s
    if env.family ≠ 6 then
      (-ENODEV, s)
    else if env.model = 0x1A ∨ env.model = 0x1E ∨ env.model = 0x1F ∨
            env.model = 0x2E then
      -- lapic_timer_reliable_states = (1 << 1), then fall through
      (0, { s with lapic_timer_reliable_states := 2,
                   cpuidle_state_table := .nehalem,
                   choose_substate := .tunable })
    else if env.model = 0x25 ∨ env.model = 0x2C then
      (0, { s with cpuidle_state_table := .nehalem,
                   choose_substate := .tunable })
    else if env.model = 0x1C ∨ env.model = 0x26 then
      -- lapic_timer_reliable_states = (1 << 2) | (1 << 1)
      (0, { s with lapic_timer_reliable_states := 6,
                   cpuidle_state_table := .atom,
                   choose_substate := .zero })
    else
      (-ENODEV, s)

/-! ## intel_idle (the hot-path executor)

The routine's interaction with the machine is captured as an event trace:
`local_irq_disable/enable`, the `clockevents_notify` broadcast enter/exit
calls, `__monitor`, `smp_mb`, and `__mwait`.  The two `need_resched()`
samples are inputs (`nr1` at the first check, `nr2` at the re-check after
monitor + barrier).  The `ktime_get_real()` pair is modelled by a clock
that advances only while the core sleeps in `__mwait` (by `mwait_usec`);
`usec_delta` is their difference. -/

inductive IdleEvent where
  | irqDisable
  | broadcastEnter (cpu : Nat)
  | monitorArm
  | memBarrier
  | mwaitExec (eax ecx : Nat)
  | irqEnable
  | broadcastExit (cpu : Nat)
deriving DecidableEq, Repr

def IdleEvent.isMwait : IdleEvent → Bool
  | .mwaitExec _ _ => true
  | _ => false

/-- Per-call inputs to `intel_idle`: the state's `driver_data` (the MWAIT
hint `eax`), the two `need_resched()` samples, the time spent asleep in
`__mwait`, and the cpu id. -/
structure IdleInput where
  driver_data : Nat := 0
  nr1 : Bool := false
  nr2 : Bool := false
  mwait_usec : Int := 0
  cpu : Nat := 0
deriving DecidableEq, Repr

structure IdleResult where
  trace : List IdleEvent
  usec_delta : Int
  irq_enabled : Bool
deriving DecidableEq, Repr

/-- `intel_idle()`.  `none` only when `choose_substate` is still the NULL
pointer (the call through it would fault); in the driver the routine runs
only after a successful probe has set the pointer.  The returned
`DriverState` reflects the tunable policy's write to `power_policy`; no
other global is written. -/
def intel_idle (s : DriverState) (inp : IdleInput) :
    Option (IdleResult × DriverState) :=
  let ecx : Nat := 1  -- break on interrupt flag
  let eax0 : Nat := inp.driver_data
  let cstate : Nat := ((eax0 >>> MWAIT_SUBSTATE_SIZE) &&& MWAIT_CSTATE_MASK) + 1
  match choose_substate_call s (cstate : Int) with
  | none => none
  | some (choice, s') =>
    let eax : Nat := eax0 + choice.toNat
    let broadcast : Bool :=
      s'.lapic_timer_reliable_states &&& (1 <<< cstate) = 0
    let enterEvents : List IdleEvent :=
      [.irqDisable] ++ (if broadcast then [.broadcastEnter inp.cpu] else [])
    -- kt_before = ktime_get_real()
    let (waitEvents, slept) :=
      if inp.nr1 = false then
        if inp.nr2 = false then
          (([.monitorArm, .memBarrier, .mwaitExec eax ecx] : List IdleEvent),
           true)
        else
          (([.monitorArm, .memBarrier] : List IdleEvent), false)
      else
        (([] : List IdleEvent), false)
    -- kt_after = ktime_get_real(); usec_delta = kt_after - kt_before
    let usec_delta : Int := if slept then inp.mwait_usec else 0
    let exitEvents : List IdleEvent :=
      [.irqEnable] ++ (if broadcast then [.broadcastExit inp.cpu] else [])
    some ({ trace := enterEvents ++ waitEvents ++ exitEvents,
            usec_delta := usec_delta,
            irq_enabled := true }, s')

/-! ## Per-core device lifecycle -/

/-- The inner loop of `intel_idle_cpuidle_devices_init`: walk catalog depths
`cstate = 1 .. MWAIT_MAX_NUM_CSTATES - 1`, break once `cstate > max_cstate`,
skip depths whose packed substate count is zero and depths whose catalog
row has a NULL `.enter` (the unnamed-row diagnostic and the
`mark_tsc_unstable` call are log/timekeeping side effects with no bearing
on the built record).  Returns the `(cstate, row)` pairs copied into
`dev->states[]` in order. -/
def devices_init_states (table : List cpuidle_state) (max_cstate : Int)
    (substates : Nat) (cstate : Nat) : List (Nat × cpuidle_state) :=
  if h : cstate < MWAIT_MAX_NUM_CSTATES then
    if (cstate : Int) > max_cstate then
      []
    else if (substates >>> (cstate * 4)) &&& MWAIT_SUBSTATE_MASK = 0 then
      devices_init_states table max_cstate substates (cstate + 1)
    else if (table.getD cstate {}).enter = false then
      devices_init_states table max_cstate substates (cstate + 1)
    else
      (cstate, table.getD cstate {}) ::
        devices_init_states table max_cstate substates (cstate + 1)
  else []
termination_by MWAIT_MAX_NUM_CSTATES - cstate
decreasing_by all_goals omega

/-- One per-core record (`struct cpuidle_device`) as populated by
`intel_idle_cpuidle_devices_init`: `dev->state_count` starts at 1
(`states[0]` is the C0 dummy) and each copied row increments it. -/
structure cpuidle_device where
  cpu : Nat := 0
  states : List (Nat × cpuidle_state) := []
  state_count : Nat := 1
deriving DecidableEq, Repr

def mk_device (table : List cpuidle_state) (max_cstate : Int)
    (substates : Nat) (cpu : Nat) : cpuidle_device :=
  let sts := devices_init_states table max_cstate substates 1
  { cpu := cpu, states := sts, state_count := 1 + sts.length }

/-- Coarse registration bookkeeping used for the single in-lifecycle
teardown call of `intel_idle_cpuidle_devices_init`'s failure path:
`devices = some ()` means the percpu allocation is live, `none` means no
live allocation.  This deliberately does not track the value of the C
global pointer itself (which `free_percpu` leaves dangling — line 349 is
not followed by a NULL assignment); the pointer-faithful model is
`DevMemState`/`intel_idle_cpuidle_devices_uninit_mem` below. -/
structure DevState where
  devices : Option Unit := none
  registered : List Nat := []
deriving DecidableEq, Repr

/-- `intel_idle_cpuidle_devices_uninit()` at the registration-bookkeeping
level: `cpuidle_unregister_device` for every online cpu, then `free_percpu`.
Adequate only for a call on a live allocation (the one call the driver
makes, from `intel_idle_cpuidle_devices_init`'s failure path or
`intel_idle_exit`); for repeated or pre-allocation calls see
`intel_idle_cpuidle_devices_uninit_mem`. -/
def intel_idle_cpuidle_devices_uninit (onlineCpus : List Nat) (s : DevState) :
    DevState :=
  { devices := none,
    registered := s.registered.filter (fun c => !(onlineCpus.contains c)) }

/-- The lifecycle of the global pointer `intel_idle_cpuidle_devices`:
initially NULL, made live by `alloc_percpu`, and left dangling by
`free_percpu` — the C never writes NULL back to the global after the
free. -/
inductive PercpuPtr where
  | null
  | live
  | dangling
deriving DecidableEq, Repr

/-- Device bookkeeping with the allocation's liveness tracked, for the
teardown lifecycle claims. -/
structure DevMemState where
  devices : PercpuPtr := .null
  registered : List Nat := []
deriving DecidableEq, Repr

/-- `intel_idle_cpuidle_devices_uninit()` with the percpu allocation's
liveness tracked.  The loop body hands
`per_cpu_ptr(intel_idle_cpuidle_devices, i)` to
`cpuidle_unregister_device`, which dereferences it — defined behaviour
only while the allocation is live (when no cpu is online the loop body
never runs); `free_percpu` is a no-op on NULL, frees a live allocation
(the global keeps the now-dangling pointer), and is a double free on a
dangling one.  `none` = the call runs into undefined behaviour
(use-after-free, double free, or a garbage `per_cpu_ptr(NULL, i)`
dereference). -/
def intel_idle_cpuidle_devices_uninit_mem (onlineCpus : List Nat)
    (s : DevMemState) : Option DevMemState :=
  match s.devices with
  | .live =>
    some { devices := .dangling,
           registered := s.registered.filter
             (fun c => !(onlineCpus.contains c)) }
  | .null => if onlineCpus.isEmpty then some s else none
  | .dangling => none

/-- The `for_each_online_cpu` registration loop of
`intel_idle_cpuidle_devices_init`.  `regOk c` is the outcome of the
external `cpuidle_register_device` for cpu `c`; on the first failure the C
calls `intel_idle_cpuidle_devices_uninit()` (over all online cpus) and
returns `- EIO`. -/
def devices_init_go (regOk : Nat → Bool) (allCpus : List Nat) (s : DevState) :
    List Nat → Int × DevState
  | [] => (0, s)
  | c :: rest =>
    if regOk c then
      devices_init_go regOk allCpus
        { s with registered := s.registered ++ [c] } rest
    else
      (- EIO, intel_idle_cpuidle_devices_uninit allCpus s)

/-- `intel_idle_cpuidle_devices_init()`: `alloc_percpu` (outcome `allocOk`),
then the per-cpu populate-and-register loop. -/
def intel_idle_cpuidle_devices_init (allocOk : Bool) (regOk : Nat → Bool)
    (onlineCpus : List Nat) (s : DevState) : Int × DevState :=
  if allocOk then
    devices_init_go regOk onlineCpus { s with devices := some () } onlineCpus
  else
    (-ENOMEM, s)

/-! ## Module init -/

/-- Outcome of `intel_idle_init()`: return value, final globals, final
device bookkeeping, whether the driver stayed registered, and whether
`intel_idle_cpuidle_devices_init` was ever invoked. -/
structure InitOutcome where
  retval : Int
  driver : DriverState
  dev : DevState
  driverRegistered : Bool
  devicesInitCalled : Bool
deriving DecidableEq, Repr

/-- `intel_idle_init()`.  `driverRegResult` is the external
`cpuidle_register_driver` return value (0 = success). -/
def intel_idle_init (env : ProbeEnv) (driverRegResult : Int) (allocOk : Bool)
    (regOk : Nat → Bool) (onlineCpus : List Nat) (s : DriverState)
    (d : DevState) : InitOutcome :=
  let pr := intel_idle_probe env s
  if pr.1 ≠ 0 then
    { retval := pr.1, driver := pr.2, dev := d,
      driverRegistered := false, devicesInitCalled := false }
  else if driverRegResult ≠ 0 then
    { retval := driverRegResult, driver := pr.2, dev := d,
      driverRegistered := false, devicesInitCalled := false }
  else
    let di := intel_idle_cpuidle_devices_init allocOk regOk onlineCpus d
    if di.1 ≠ 0 then
      -- cpuidle_unregister_driver(&intel_idle_driver)
      { retval := di.1, driver := pr.2, dev := di.2,
        driverRegistered := false, devicesInitCalled := true }
    else
      { retval := 0, driver := pr.2, dev := di.2,
        driverRegistered := true, devicesInitCalled := true }

/-- The set of processor models matched by the probe's model switch (the
compiled-in `case` labels; `FUTURE_USE` model `0x17` is not compiled). -/
def matched_models : List Nat := [0x1A, 0x1E, 0x1F, 0x2E, 0x25, 0x2C, 0x1C, 0x26]

/-! # Theorems -/

theorem choose_tunable_substate_fst (ss : Nat) (pp cstate : Int) :
    (choose_tunable_substate ss pp cstate).1 =
      if num_substates_of ss cstate ≤ 1 then 0
      else (((pp % 16).toNat + ((pp % 16).toNat + 1) *
              (num_substates_of ss cstate - 1)) / 16 : Nat) := by
  by_cases hc : num_substates_of ss cstate ≤ 1 <;>
    simp [choose_tunable_substate, hc]

theorem choose_tunable_substate_snd (ss : Nat) (pp cstate : Int) :
    (choose_tunable_substate ss pp cstate).2 = pp % 16 := by
  by_cases hc : num_substates_of ss cstate ≤ 1 <;>
    simp [choose_tunable_substate, hc]

/-- Claim C4: for every `power_policy` in `[0,15]` and every substate count
reachable from the packed `substates` word (all counts in `[1,15]`; a count
of 16 does not fit the 4-bit field), the tunable selection returns 0 when
the count is ≤ 1, returns `(power_policy + (power_policy+1)*(count-1)) / 16`
when the count exceeds 1, and in every case lies in `[0, count-1]`. -/
theorem choose_tunable_substate_range (ss : Nat) (pp cstate : Int)
    (h0 : 0 ≤ pp) (h1 : pp ≤ 15) :
    (num_substates_of ss cstate ≤ 1 →
      (choose_tunable_substate ss pp cstate).1 = 0) ∧
    (1 < num_substates_of ss cstate →
      (choose_tunable_substate ss pp cstate).1 =
        (((pp.toNat + (pp.toNat + 1) * (num_substates_of ss cstate - 1)) / 16
          : Nat) : Int)) ∧
    (1 ≤ num_substates_of ss cstate →
      0 ≤ (choose_tunable_substate ss pp cstate).1 ∧
      (choose_tunable_substate ss pp cstate).1 ≤
        (num_substates_of ss cstate : Int) - 1) := by
  have hm : pp % 16 = pp := by omega
  rw [choose_tunable_substate_fst ss pp cstate, hm]
  by_cases hc : num_substates_of ss cstate ≤ 1
  · refine ⟨fun _ => by simp [hc], fun h2 => absurd h2 (by omega),
      fun h1c => ?_⟩
    have hc1 : num_substates_of ss cstate = 1 := by omega
    simp [hc, hc1]
  · have hp : pp.toNat ≤ 15 := by omega
    have hc2 : 2 ≤ num_substates_of ss cstate := by omega
    refine ⟨fun h => absurd h hc, fun _ => by simp [hc], fun _ => ?_⟩
    have hmul : (pp.toNat + 1) * (num_substates_of ss cstate - 1) ≤
        16 * (num_substates_of ss cstate - 1) :=
      Nat.mul_le_mul_right _ (by omega)
    have hdiv : (pp.toNat + (pp.toNat + 1) * (num_substates_of ss cstate - 1))
          / 16 ≤
        (16 * (num_substates_of ss cstate - 1) + 15) / 16 :=
      Nat.div_le_div_right (by omega)
    have hval : (16 * (num_substates_of ss cstate - 1) + 15) / 16 =
        num_substates_of ss cstate - 1 := by omega
    rw [if_neg hc]
    constructor
    · positivity
    · rw [hval] at hdiv
      omega

/-- Claim C8 counterexample: with the administratively writable global
`power_policy` set to 16, a call to the tunable policy changes the program
state — `power_policy &= 0xF` writes 0 back to the global — so the claim
that a call leaves every piece of program state unchanged is false. -/
theorem choose_tunable_substate_mutates_state_cex :
    Option.map Prod.snd (choose_substate_call
        { power_policy := 16, choose_substate := SubstatePolicy.tunable } 1) ≠
      some { power_policy := 16, choose_substate := SubstatePolicy.tunable } := by
  decide

/-- Claim C8 (amended): the tunable policy's return value is a pure function
of the depth, the current `power_policy` and the substate-count word, and
its only effect on program state is the defensive write-back
`power_policy := power_policy & 0xF`; in particular when `power_policy` is
already in `[0,15]` the call leaves all program state unchanged. -/
theorem choose_tunable_substate_effects (s : DriverState) (cstate : Int)
    (hpol : s.choose_substate = SubstatePolicy.tunable) :
    choose_substate_call s cstate =
      some ((choose_tunable_substate s.substates s.power_policy cstate).1,
            { s with power_policy := s.power_policy % 16 }) ∧
    (0 ≤ s.power_policy → s.power_policy < 16 →
      choose_substate_call s cstate =
        some ((choose_tunable_substate s.substates s.power_policy cstate).1,
              s)) := by
  obtain ⟨mc, pp, ss, lt, tb, cs⟩ := s
  simp only at hpol
  subst hpol
  have h2 := choose_tunable_substate_snd ss pp cstate
  constructor
  · simp [choose_substate_call, h2]
  · intro ha hb
    simp only at ha hb
    have hid : pp % 16 = pp := by omega
    simp [choose_substate_call, h2, hid]

/-- Witness for `choose_tunable_substate_effects` at the spec's scenario
(`power_policy = 7`, counts `{2,1,4}` at depths 1–3). -/
theorem choose_tunable_substate_effects_witness :
    choose_substate_call
        { substates := 0x4120, choose_substate := SubstatePolicy.tunable } 3 =
      some ((choose_tunable_substate 0x4120 7 3).1,
            { substates := 0x4120, choose_substate := SubstatePolicy.tunable }) :=
  (choose_tunable_substate_effects
      { substates := 0x4120, choose_substate := SubstatePolicy.tunable } 3
      rfl).2 (by decide) (by decide)

/-- Witness for `choose_tunable_substate_range` at the spec's scenario:
count 4 at depth 3 with `power_policy = 7` selects substate 1. -/
theorem choose_tunable_substate_range_witness :
    (1 < num_substates_of 0x4120 3 →
      (choose_tunable_substate 0x4120 7 3).1 =
        ((((7 : Int).toNat + ((7 : Int).toNat + 1) *
            (num_substates_of 0x4120 3 - 1)) / 16 : Nat) : Int)) ∧
    (1 ≤ num_substates_of 0x4120 3 →
      0 ≤ (choose_tunable_substate 0x4120 7 3).1 ∧
      (choose_tunable_substate 0x4120 7 3).1 ≤
        (num_substates_of 0x4120 3 : Int) - 1) :=
  ⟨(choose_tunable_substate_range 0x4120 7 3 (by decide) (by decide)).2.1,
   (choose_tunable_substate_range 0x4120 7 3 (by decide) (by decide)).2.2⟩

/-- Claim C5 counterexample: with one online cpu, calling the teardown
twice in a row is not "the same end state with no error": the first call
frees the allocation but leaves the global pointer dangling, so the second
call is a double free / use-after-free (undefined behaviour); and a call
with no records installed (pointer still NULL) while a cpu is online hands
`cpuidle_unregister_device` the garbage pointer `per_cpu_ptr(NULL, 0)` —
not safe either. -/
theorem devices_uninit_double_free_cex :
    (intel_idle_cpuidle_devices_uninit_mem [0]
        { devices := PercpuPtr.live, registered := [0] }).bind
      (intel_idle_cpuidle_devices_uninit_mem [0]) = none ∧
    intel_idle_cpuidle_devices_uninit_mem [0]
      { devices := PercpuPtr.null, registered := [] } = none := by
  decide

/-- Claim C5 (amended): the teardown is idempotent only at the
registration-bookkeeping level.  A call on a live allocation unregisters
every online core (zero registered cores afterwards) and frees the percpu
allocation, but the C never NULLs `intel_idle_cpuidle_devices` after
`free_percpu`, so a second consecutive call is a double free /
use-after-free, and a call made before any allocation dereferences
`per_cpu_ptr(NULL, i)` for each online cpu; the only safe no-records call
is with no online cpus, where the NULL-safe `free_percpu` makes it the
identity. -/
theorem devices_uninit_not_idempotent (onlineCpus : List Nat)
    (s : DevMemState) :
    (s.devices = PercpuPtr.live →
      ((intel_idle_cpuidle_devices_uninit_mem onlineCpus s).map
          DevMemState.devices = some PercpuPtr.dangling) ∧
      ((∀ c ∈ s.registered, c ∈ onlineCpus) →
        (intel_idle_cpuidle_devices_uninit_mem onlineCpus s).map
          DevMemState.registered = some []) ∧
      (intel_idle_cpuidle_devices_uninit_mem onlineCpus s).bind
        (intel_idle_cpuidle_devices_uninit_mem onlineCpus) = none) ∧
    (s.devices = PercpuPtr.null →
      intel_idle_cpuidle_devices_uninit_mem onlineCpus s =
        if onlineCpus.isEmpty then some s else none) := by
  obtain ⟨dv, reg⟩ := s
  constructor
  · intro hlive
    simp only at hlive
    subst hlive
    refine ⟨by simp [intel_idle_cpuidle_devices_uninit_mem],
      fun hsub => ?_,
      by simp [intel_idle_cpuidle_devices_uninit_mem]⟩
    simp only at hsub
    simp only [intel_idle_cpuidle_devices_uninit_mem]
    simp only [Option.map_some', Option.some.injEq, List.filter_eq_nil_iff]
    intro a ha
    simp [hsub a ha]
  · intro hnull
    simp only at hnull
    subst hnull
    simp [intel_idle_cpuidle_devices_uninit_mem]

/-- Witness for `devices_uninit_not_idempotent`: two registered cores on a
live allocation — the first call unregisters both and leaves the pointer
dangling, the second call is undefined behaviour. -/
theorem devices_uninit_not_idempotent_witness :
    ((intel_idle_cpuidle_devices_uninit_mem [0, 1]
        { devices := PercpuPtr.live, registered := [0, 1] }).map
        DevMemState.devices = some PercpuPtr.dangling) ∧
    ((intel_idle_cpuidle_devices_uninit_mem [0, 1]
        { devices := PercpuPtr.live, registered := [0, 1] }).map
        DevMemState.registered = some []) ∧
    ((intel_idle_cpuidle_devices_uninit_mem [0, 1]
        { devices := PercpuPtr.live, registered := [0, 1] }).bind
        (intel_idle_cpuidle_devices_uninit_mem [0, 1]) = none) :=
  have h := devices_uninit_not_idempotent [0, 1]
    { devices := PercpuPtr.live, registered := [0, 1] }
  ⟨(h.1 rfl).1, (h.1 rfl).2.1 (by decide), (h.1 rfl).2.2⟩

theorem devices_init_states_ge (table : List cpuidle_state) (mc : Int)
    (ss : Nat) :
    ∀ (n c : Nat), MWAIT_MAX_NUM_CSTATES - c ≤ n →
      ∀ p ∈ devices_init_states table mc ss c, c ≤ p.1 := by
  intro n
  induction n with
  | zero =>
    intro c hc p hp
    unfold devices_init_states at hp
    rw [dif_neg (by omega)] at hp
    exact absurd hp (List.not_mem_nil p)
  | succ n ih =>
    intro c hc p hp
    unfold devices_init_states at hp
    by_cases h8 : c < MWAIT_MAX_NUM_CSTATES
    · rw [dif_pos h8] at hp
      by_cases hmax : (c : Int) > mc
      · rw [if_pos hmax] at hp
        exact absurd hp (List.not_mem_nil p)
      · rw [if_neg hmax] at hp
        have hrec : ∀ q ∈ devices_init_states table mc ss (c + 1), c ≤ q.1 :=
          fun q hq => Nat.le_of_succ_le (ih (c + 1) (by omega) q hq)
        split at hp
        · exact hrec p hp
        · split at hp
          · exact hrec p hp
          · rcases List.mem_cons.mp hp with h | h
            · rw [h]
            · exact hrec p h
    · rw [dif_neg h8] at hp
      exact absurd hp (List.not_mem_nil p)

theorem devices_init_states_pairwise (table : List cpuidle_state) (mc : Int)
    (ss : Nat) :
    ∀ (n c : Nat), MWAIT_MAX_NUM_CSTATES - c ≤ n →
      List.Pairwise (fun p q => p.1 < q.1)
        (devices_init_states table mc ss c) := by
  intro n
  induction n with
  | zero =>
    intro c hc
    unfold devices_init_states
    rw [dif_neg (by omega)]
    exact List.Pairwise.nil
  | succ n ih =>
    intro c hc
    unfold devices_init_states
    by_cases h8 : c < MWAIT_MAX_NUM_CSTATES
    · rw [dif_pos h8]
      by_cases hmax : (c : Int) > mc
      · rw [if_pos hmax]
        exact List.Pairwise.nil
      · rw [if_neg hmax]
        have hrest := ih (c + 1) (by omega)
        have hge := devices_init_states_ge table mc ss n (c + 1) (by omega)
        split
        · exact hrest
        · split
          · exact hrest
          · exact List.Pairwise.cons (fun q hq => by
              have := hge q hq; omega) hrest
    · rw [dif_neg h8]
      exact List.Pairwise.nil

/-- Claim C6: the sequence of active catalog rows copied into any per-core
record built by `intel_idle_cpuidle_devices_init` is strictly increasing in
cstate (depth) index. -/
theorem mk_device_states_strict_mono (table : List cpuidle_state) (mc : Int)
    (ss : Nat) (cpu : Nat) :
    List.Pairwise (fun p q => p.1 < q.1) (mk_device table mc ss cpu).states :=
  devices_init_states_pairwise table mc ss MWAIT_MAX_NUM_CSTATES 1 (by omega)

theorem devices_init_go_fail (regOk : Nat → Bool) (allCpus : List Nat) :
    ∀ (cpus : List Nat) (s : DevState),
      (∀ x ∈ s.registered, x ∈ allCpus) → (∀ x ∈ cpus, x ∈ allCpus) →
      (∃ c ∈ cpus, regOk c = false) →
      (devices_init_go regOk allCpus s cpus).1 = - EIO ∧
      (devices_init_go regOk allCpus s cpus).2.registered = [] ∧
      (devices_init_go regOk allCpus s cpus).2.devices = none := by
  intro cpus
  induction cpus with
  | nil =>
    intro s _ _ hex
    exact absurd hex (by simp)
  | cons c rest ih =>
    intro s hreg hcpus hex
    by_cases hc : regOk c
    · have hex' : ∃ d ∈ rest, regOk d = false := by
        rcases hex with ⟨d, hd, hdf⟩
        rcases List.mem_cons.mp hd with h | h
        · rw [h] at hdf; rw [hc] at hdf; exact absurd hdf (by simp)
        · exact ⟨d, h, hdf⟩
      have hreg' : ∀ x ∈ ({ s with
          registered := s.registered ++ [c] } : DevState).registered,
          x ∈ allCpus := by
        intro x hx
        simp only [List.mem_append, List.mem_singleton] at hx
        rcases hx with h | h
        · exact hreg x h
        · rw [h]; exact hcpus c (List.mem_cons_self c rest)
      have hgo : devices_init_go regOk allCpus s (c :: rest) =
          devices_init_go regOk allCpus
            { s with registered := s.registered ++ [c] } rest := by
        rw [devices_init_go, hc]
        simp
      rw [hgo]
      exact ih { s with registered := s.registered ++ [c] } hreg'
        (fun x hx => hcpus x (List.mem_cons_of_mem c hx)) hex'
    · rw [Bool.not_eq_true] at hc
      have hgo : devices_init_go regOk allCpus s (c :: rest) =
          (- EIO, intel_idle_cpuidle_devices_uninit allCpus s) := by
        rw [devices_init_go, hc]
        simp
      rw [hgo]
      refine ⟨rfl, ?_, rfl⟩
      unfold intel_idle_cpuidle_devices_uninit
      simp only [List.filter_eq_nil_iff]
      intro a ha
      simp [hreg a ha]

/-- Claim C3: if registering the per-core device fails for any online core,
`intel_idle_cpuidle_devices_init` fails with `- EIO`, every record installed
for other cores has been unregistered, and the percpu allocation has been
freed — no non-empty proper subset of cores is left registered. -/
theorem devices_init_all_or_nothing (regOk : Nat → Bool)
    (onlineCpus : List Nat) (h : ∃ c ∈ onlineCpus, regOk c = false) :
    (intel_idle_cpuidle_devices_init true regOk onlineCpus {}).1 = - EIO ∧
    (intel_idle_cpuidle_devices_init true regOk onlineCpus {}).2.registered
      = [] ∧
    (intel_idle_cpuidle_devices_init true regOk onlineCpus {}).2.devices
      = none := by
  unfold intel_idle_cpuidle_devices_init
  rw [if_pos rfl]
  exact devices_init_go_fail regOk onlineCpus onlineCpus
    { devices := some (), registered := [] } (by simp) (fun x hx => hx) h

/-- Witness for `devices_init_all_or_nothing`: registering core 2 of
`[0,1,2,3]` fails, everything is unwound. -/
theorem devices_init_all_or_nothing_witness :
    (intel_idle_cpuidle_devices_init true (fun c => !(c == 2))
        [0, 1, 2, 3] {}).1 = - EIO ∧
    (intel_idle_cpuidle_devices_init true (fun c => !(c == 2))
        [0, 1, 2, 3] {}).2.registered = [] ∧
    (intel_idle_cpuidle_devices_init true (fun c => !(c == 2))
        [0, 1, 2, 3] {}).2.devices = none :=
  devices_init_all_or_nothing (fun c => !(c == 2)) [0, 1, 2, 3]
    ⟨2, by decide, by decide⟩

/-- Claim C7: `intel_idle_probe` performs its admission checks in order,
short-circuiting on the first failure: `max_cstate == 0` fails with
`-EPERM`; then vendor mismatch, missing MWAIT support, missing feature-query
leaf, and missing required extension bits each fail with `-ENODEV`, in that
order, each leaving the globals untouched. -/
theorem probe_check_order (env : ProbeEnv) (s : DriverState) :
    (s.max_cstate = 0 → intel_idle_probe env s = (-EPERM, s)) ∧
    (s.max_cstate ≠ 0 → env.vendor_intel = false →
      intel_idle_probe env s = (-ENODEV, s)) ∧
    (s.max_cstate ≠ 0 → env.vendor_intel = true → env.has_mwait = false →
      intel_idle_probe env s = (-ENODEV, s)) ∧
    (s.max_cstate ≠ 0 → env.vendor_intel = true → env.has_mwait = true →
      env.cpuid_level < CPUID_MWAIT_LEAF →
      intel_idle_probe env s = (-ENODEV, s)) ∧
    (s.max_cstate ≠ 0 → env.vendor_intel = true → env.has_mwait = true →
      CPUID_MWAIT_LEAF ≤ env.cpuid_level →
      (env.cpuid5_ecx &&& CPUID5_ECX_EXTENSIONS_SUPPORTED = 0 ∨
       env.cpuid5_ecx &&& CPUID5_ECX_INTERRUPT_BREAK = 0) →
      intel_idle_probe env s = (-ENODEV, s)) := by
  refine ⟨fun h0 => ?_, fun h0 h1 => ?_, fun h0 h1 h2 => ?_,
    fun h0 h1 h2 h3 => ?_, fun h0 h1 h2 h3 h4 => ?_⟩
  · simp [intel_idle_probe, h0]
  · simp [intel_idle_probe, h0, h1]
  · simp [intel_idle_probe, h0, h1, h2]
  · simp [intel_idle_probe, h0, h1, h2, h3]
  · have h3' : ¬ env.cpuid_level < CPUID_MWAIT_LEAF := by omega
    simp [intel_idle_probe, h0, h1, h2, h3', h4]

/-- Witness for `probe_check_order`: each of the five short-circuits at a
concrete input (defaults pass every earlier check). -/
theorem probe_check_order_witness :
    intel_idle_probe {} { max_cstate := 0 } = (-EPERM, { max_cstate := 0 }) ∧
    intel_idle_probe { vendor_intel := false } {} = (-ENODEV, {}) ∧
    intel_idle_probe { has_mwait := false } {} = (-ENODEV, {}) ∧
    intel_idle_probe { cpuid_level := 4 } {} = (-ENODEV, {}) ∧
    intel_idle_probe { cpuid5_ecx := 2 } {} = (-ENODEV, {}) :=
  ⟨(probe_check_order {} { max_cstate := 0 }).1 rfl,
   (probe_check_order { vendor_intel := false } {}).2.1 (by decide) rfl,
   (probe_check_order { has_mwait := false } {}).2.2.1 (by decide) rfl rfl,
   (probe_check_order { cpuid_level := 4 } {}).2.2.2.1 (by decide) rfl rfl
     (by decide),
   (probe_check_order { cpuid5_ecx := 2 } {}).2.2.2.2 (by decide) rfl rfl
     (by decide) (Or.inl (by decide))⟩

/-- Claim C9: probing on a non-matching vendor (with the driver not
administratively disabled) fails with `-ENODEV`, leaves every global
untouched — in particular `cpuidle_state_table` and `choose_substate` stay
unset — and `intel_idle_init` never invokes
`intel_idle_cpuidle_devices_init`. -/
theorem probe_vendor_mismatch (env : ProbeEnv) (s : DriverState)
    (hmc : s.max_cstate ≠ 0) (hv : env.vendor_intel = false) :
    (intel_idle_probe env s).1 = -ENODEV ∧
    (intel_idle_probe env s).2 = s ∧
    (intel_idle_probe env s).2.cpuidle_state_table = s.cpuidle_state_table ∧
    (intel_idle_probe env s).2.choose_substate = s.choose_substate ∧
    ∀ (drr : Int) (allocOk : Bool) (regOk : Nat → Bool) (cpus : List Nat)
      (d : DevState),
      (intel_idle_init env drr allocOk regOk cpus s d).devicesInitCalled
        = false ∧
      (intel_idle_init env drr allocOk regOk cpus s d).dev = d := by
  have hp : intel_idle_probe env s = (-ENODEV, s) :=
    (probe_check_order env s).2.1 hmc hv
  refine ⟨by rw [hp], by rw [hp], by rw [hp], by rw [hp], ?_⟩
  intro drr allocOk regOk cpus d
  unfold intel_idle_init
  rw [hp]
  norm_num [ENODEV]

/-- Witness for `probe_vendor_mismatch` at a concrete non-Intel
environment. -/
theorem probe_vendor_mismatch_witness :
    (intel_idle_probe { vendor_intel := false } {}).1 = -ENODEV ∧
    (intel_idle_probe { vendor_intel := false } {}).2 = {} :=
  ⟨(probe_vendor_mismatch { vendor_intel := false } {} (by decide) rfl).1,
   (probe_vendor_mismatch { vendor_intel := false } {} (by decide) rfl).2.1⟩

/-- Claim C10: when the probe fails at the family check or at the
model-match stage (all earlier checks passed), the substate-count word has
already been recorded from CPUID and, when ARAT is present, the
reliable-timer mask has already been set to all-ones; both survive the
`-ENODEV` failure — probe failure at that stage is not atomic for these
globals. -/
theorem probe_model_fail_residual (env : ProbeEnv) (s : DriverState)
    (hmc : s.max_cstate ≠ 0) (hv : env.vendor_intel = true)
    (hmw : env.has_mwait = true) (hlvl : CPUID_MWAIT_LEAF ≤ env.cpuid_level)
    (hecx1 : env.cpuid5_ecx &&& CPUID5_ECX_EXTENSIONS_SUPPORTED ≠ 0)
    (hecx2 : env.cpuid5_ecx &&& CPUID5_ECX_INTERRUPT_BREAK ≠ 0)
    (hsub : s.substates = 0)
    (hfail : env.family ≠ 6 ∨ ¬ env.model ∈ matched_models) :
    (intel_idle_probe env s).1 = -ENODEV ∧
    (intel_idle_probe env s).2.substates = env.cpuid5_edx ∧
    (intel_idle_probe env s).2.lapic_timer_reliable_states =
      (if env.has_arat then 0xFFFFFFFF
       else s.lapic_timer_reliable_states) := by
  have h3' : ¬ env.cpuid_level < CPUID_MWAIT_LEAF := by omega
  unfold intel_idle_probe
  rw [if_neg hmc, if_neg (by simp [hv]), if_neg (by simp [hmw]),
    if_neg h3', if_neg (by simp [hecx1, hecx2]), if_pos hsub]
  rcases hfail with hf | hm
  · rw [if_pos hf]
    by_cases ha : env.has_arat <;> simp [ha]
  · simp only [matched_models, List.mem_cons, List.not_mem_nil, or_false,
      not_or] at hm
    obtain ⟨m1, m2, m3, m4, m5, m6, m7, m8⟩ := hm
    by_cases hf : env.family ≠ 6
    · rw [if_pos hf]
      by_cases ha : env.has_arat <;> simp [ha]
    · rw [if_neg hf, if_neg (by simp [m1, m2, m3, m4]),
        if_neg (by simp [m5, m6]), if_neg (by simp [m7, m8])]
      by_cases ha : env.has_arat <;> simp [ha]

/-- Witness for `probe_model_fail_residual`: family-6 model `0x17`
(Core 2 Duo, compiled out) with ARAT and `edx = 0x11`. -/
theorem probe_model_fail_residual_witness :
    (intel_idle_probe
        { has_arat := true, model := 0x17, cpuid5_edx := 0x11 } {}).1
      = -ENODEV ∧
    (intel_idle_probe
        { has_arat := true, model := 0x17, cpuid5_edx := 0x11 } {}).2.substates
      = 0x11 ∧
    (intel_idle_probe { has_arat := true, model := 0x17, cpuid5_edx := 0x11 }
        {}).2.lapic_timer_reliable_states = 0xFFFFFFFF :=
  probe_model_fail_residual
    { has_arat := true, model := 0x17, cpuid5_edx := 0x11 } {}
    (by decide) rfl rfl (by decide) (by decide) (by decide) rfl
    (Or.inr (by decide))

theorem choose_substate_call_lapic (s : DriverState) (cstate : Int)
    (r : Int) (s' : DriverState)
    (h : choose_substate_call s cstate = some (r, s')) :
    s'.lapic_timer_reliable_states = s.lapic_timer_reliable_states := by
  unfold choose_substate_call at h
  cases hcs : s.choose_substate <;> rw [hcs] at h
  · exact absurd h (by simp)
  · simp only [Option.some.injEq, Prod.mk.injEq] at h
    rw [← h.2]
  · simp only [Option.some.injEq, Prod.mk.injEq] at h
    rw [← h.2]

/-- `intel_idle` never writes `lapic_timer_reliable_states` (its only write
to the globals is the tunable policy's `power_policy` mask). -/
theorem intel_idle_lapic_frame (s : DriverState) (inp : IdleInput)
    (res : IdleResult) (s' : DriverState)
    (h : intel_idle s inp = some (res, s')) :
    s'.lapic_timer_reliable_states = s.lapic_timer_reliable_states := by
  simp only [intel_idle] at h
  split at h
  · exact absurd h (by simp)
  · rename_i choice s2 heq
    simp only [Option.some.injEq, Prod.mk.injEq] at h
    rw [← h.2]
    exact choose_substate_call_lapic s _ choice s2 heq

/-- Claim C1 counterexample: on hardware advertising ARAT, with matched
model `0x1A` (Core i7), `intel_idle_probe` succeeds yet the reliable-timer
mask ends up `(1 << 1)` — the model switch overwrites the ARAT all-ones
assignment — so not every bit of the mask is set after a successful
probe. -/
theorem probe_arat_allones_cex :
    (intel_idle_probe
        { has_arat := true, model := 0x1A, cpuid5_edx := 0x11 } {}).1 = 0 ∧
    (intel_idle_probe { has_arat := true, model := 0x1A, cpuid5_edx := 0x11 }
        {}).2.lapic_timer_reliable_states ≠ 0xFFFFFFFF := by
  decide

/-- Claim C1 (amended): when ARAT is advertised, the probe first sets the
reliable-timer mask to all-ones, but the model switch then overwrites it
for the models that install a per-model mask: after a successful probe the
mask is `(1 << 1)` for models `0x1A/0x1E/0x1F/0x2E`, `(1<<2)|(1<<1)` for
models `0x1C/0x26`, and all-ones exactly for the remaining matched models
(`0x25/0x2C`, Westmere); afterwards the mask is never mutated — in
particular no `intel_idle` call changes it. -/
theorem probe_arat_mask_after_success (env : ProbeEnv) (s : DriverState)
    (ha : env.has_arat = true) (hs : (intel_idle_probe env s).1 = 0) :
    ((intel_idle_probe env s).2.lapic_timer_reliable_states =
      if env.model = 0x1A ∨ env.model = 0x1E ∨ env.model = 0x1F ∨
         env.model = 0x2E then 2
      else if env.model = 0x1C ∨ env.model = 0x26 then 6
      else 0xFFFFFFFF) ∧
    ∀ (inp : IdleInput) (res : IdleResult) (s2 : DriverState),
      intel_idle (intel_idle_probe env s).2 inp = some (res, s2) →
      s2.lapic_timer_reliable_states =
        (intel_idle_probe env s).2.lapic_timer_reliable_states := by
  refine ⟨?_, fun inp res s2 h =>
    intel_idle_lapic_frame (intel_idle_probe env s).2 inp res s2 h⟩
  by_cases h0 : s.max_cstate = 0
  · norm_num [intel_idle_probe, h0, EPERM] at hs
  by_cases h1 : env.vendor_intel = false
  · norm_num [intel_idle_probe, h0, h1, ENODEV] at hs
  by_cases h2 : env.has_mwait = false
  · norm_num [intel_idle_probe, h0, h1, h2, ENODEV] at hs
  by_cases h3 : env.cpuid_level < CPUID_MWAIT_LEAF
  · norm_num [intel_idle_probe, h0, h1, h2, h3, ENODEV] at hs
  by_cases h4 : env.cpuid5_ecx &&& CPUID5_ECX_EXTENSIONS_SUPPORTED = 0 ∨
      env.cpuid5_ecx &&& CPUID5_ECX_INTERRUPT_BREAK = 0
  · norm_num [intel_idle_probe, h0, h1, h2, h3, h4, ENODEV] at hs
  by_cases hfam : env.family = 6
  · by_cases g1 : env.model = 0x1A ∨ env.model = 0x1E ∨ env.model = 0x1F ∨
        env.model = 0x2E
    · simp [intel_idle_probe, h0, h1, h2, h3, h4, hfam, g1, ha]
    by_cases g2 : env.model = 0x25 ∨ env.model = 0x2C
    · have hnatom : ¬ (env.model = 0x1C ∨ env.model = 0x26) := by
        rcases g2 with h | h <;> simp [h]
      simp [intel_idle_probe, h0, h1, h2, h3, h4, hfam, g1, g2, hnatom, ha]
    by_cases g3 : env.model = 0x1C ∨ env.model = 0x26
    · simp [intel_idle_probe, h0, h1, h2, h3, h4, hfam, g1, g2, g3, ha]
    · norm_num [intel_idle_probe, h0, h1, h2, h3, h4, hfam, g1, g2, g3,
        ENODEV] at hs
  · norm_num [intel_idle_probe, h0, h1, h2, h3, h4, hfam, ENODEV] at hs

/-- Witness for `probe_arat_mask_after_success`: ARAT with Westmere model
`0x25` keeps the all-ones mask. -/
theorem probe_arat_mask_after_success_witness :
    (intel_idle_probe { has_arat := true, model := 0x25, cpuid5_edx := 0x11 }
        {}).2.lapic_timer_reliable_states = 0xFFFFFFFF :=
  (probe_arat_mask_after_success
      { has_arat := true, model := 0x25, cpuid5_edx := 0x11 } {}
      rfl (by decide)).1

/-- Claim C2: in every `intel_idle` call the wait instruction is executed
iff the pending-reschedule flag was clear at both samples; when it is
executed, it is immediately preceded in the event trace by arming the
monitor and issuing the memory barrier (the re-check happens after both);
and when a reschedule is already pending at entry the wait instruction is
never issued, the elapsed time returned is zero, and interrupts are still
re-enabled before return. -/
theorem intel_idle_resched_ordering (s : DriverState) (inp : IdleInput)
    (res : IdleResult) (s' : DriverState)
    (h : intel_idle s inp = some (res, s')) :
    (res.trace.any IdleEvent.isMwait = true ↔
      inp.nr1 = false ∧ inp.nr2 = false) ∧
    (inp.nr1 = false → inp.nr2 = false →
      ∃ e l r, res.trace =
        l ++ [IdleEvent.monitorArm, IdleEvent.memBarrier,
              IdleEvent.mwaitExec e 1] ++ r) ∧
    (inp.nr1 = true →
      res.trace.any IdleEvent.isMwait = false ∧
      res.usec_delta = 0 ∧
      res.irq_enabled = true ∧
      ∃ l r, res.trace = l ++ IdleEvent.irqEnable :: r) := by
  simp only [intel_idle] at h
  split at h
  · exact absurd h (by simp)
  · rename_i choice s2 heq
    simp only [Option.some.injEq, Prod.mk.injEq] at h
    obtain ⟨hres, hs2⟩ := h
    subst hres
    by_cases hb : s2.lapic_timer_reliable_states &&&
        (1 <<< (((inp.driver_data >>> MWAIT_SUBSTATE_SIZE) &&&
          MWAIT_CSTATE_MASK) + 1)) = 0 <;>
      by_cases hnr1 : inp.nr1 = false <;>
      by_cases hnr2 : inp.nr2 = false
    · refine ⟨by simp [hb, hnr1, hnr2, IdleEvent.isMwait], fun _ _ =>
        ⟨inp.driver_data + choice.toNat, [.irqDisable, .broadcastEnter inp.cpu],
         [.irqEnable, .broadcastExit inp.cpu], by simp [hb, hnr1, hnr2]⟩,
        fun h1 => absurd h1 (by simp [hnr1])⟩
    · refine ⟨by simp [hb, hnr1, hnr2, IdleEvent.isMwait], fun _ h2 =>
        absurd h2 hnr2, fun h1 => absurd h1 (by simp [hnr1])⟩
    · rw [Bool.not_eq_false] at hnr1
      refine ⟨by simp [hb, hnr1, hnr2, IdleEvent.isMwait], fun h1 =>
        absurd hnr1 (by simp [h1]), fun _ =>
        ⟨by simp [hb, hnr1, IdleEvent.isMwait], by simp [hnr1],
         rfl, [.irqDisable, .broadcastEnter inp.cpu], [.broadcastExit inp.cpu],
         by simp [hb, hnr1]⟩⟩
    · rw [Bool.not_eq_false] at hnr1
      refine ⟨by simp [hb, hnr1, IdleEvent.isMwait], fun h1 =>
        absurd hnr1 (by simp [h1]), fun _ =>
        ⟨by simp [hb, hnr1, IdleEvent.isMwait], by simp [hnr1],
         rfl, [.irqDisable, .broadcastEnter inp.cpu], [.broadcastExit inp.cpu],
         by simp [hb, hnr1]⟩⟩
    · refine ⟨by simp [hb, hnr1, hnr2, IdleEvent.isMwait], fun _ _ =>
        ⟨inp.driver_data + choice.toNat, [.irqDisable],
         [.irqEnable], by simp [hb, hnr1, hnr2]⟩,
        fun h1 => absurd h1 (by simp [hnr1])⟩
    · refine ⟨by simp [hb, hnr1, hnr2, IdleEvent.isMwait], fun _ h2 =>
        absurd h2 hnr2, fun h1 => absurd h1 (by simp [hnr1])⟩
    · rw [Bool.not_eq_false] at hnr1
      refine ⟨by simp [hb, hnr1, hnr2, IdleEvent.isMwait], fun h1 =>
        absurd hnr1 (by simp [h1]), fun _ =>
        ⟨by simp [hb, hnr1, IdleEvent.isMwait], by simp [hnr1],
         rfl, [.irqDisable], [], by simp [hb, hnr1]⟩⟩
    · rw [Bool.not_eq_false] at hnr1
      refine ⟨by simp [hb, hnr1, IdleEvent.isMwait], fun h1 =>
        absurd hnr1 (by simp [h1]), fun _ =>
        ⟨by simp [hb, hnr1, IdleEvent.isMwait], by simp [hnr1],
         rfl, [.irqDisable], [], by simp [hb, hnr1]⟩⟩

/-- Witness for `intel_idle_resched_ordering`: a concrete call with a
pending reschedule at entry — no wait instruction, zero elapsed time,
interrupts re-enabled. -/
theorem intel_idle_resched_ordering_witness :
    (([IdleEvent.irqDisable, IdleEvent.broadcastEnter 0, IdleEvent.irqEnable,
       IdleEvent.broadcastExit 0] : List IdleEvent).any IdleEvent.isMwait
      = false) ∧
    (0 : Int) = 0 ∧ true = true :=
  have h := intel_idle_resched_ordering
    { choose_substate := SubstatePolicy.zero }
    { nr1 := true, nr2 := true, mwait_usec := 5 }
    { trace := [IdleEvent.irqDisable, IdleEvent.broadcastEnter 0,
                IdleEvent.irqEnable, IdleEvent.broadcastExit 0],
      usec_delta := 0, irq_enabled := true }
    { choose_substate := SubstatePolicy.zero } (by decide)
  ⟨(h.2.2 rfl).1, (h.2.2 rfl).2.1, rfl⟩

end IntelIdle
